import Mathlib

/-!
Shallow embedding of the escalation / classification / metrics core of the
AI-support-agent repository (src/models.py, src/classifier.py, src/metrics.py,
src/escalation.py, src/handlers/user.py), together with theorems settling the
frozen claims about it.

External collaborators (the LLM client, the embedding model, the Chroma vector
store's distance computation, SQLAlchemy persistence) are modelled as explicit
parameters or oracles; the branching logic of the Python source is translated
line by line.  Python float arithmetic in `get_adaptive_threshold` is modelled
with exact rationals; the concrete inputs used in counterexamples keep the
intermediate quantities far (more than 1/2) from integer boundaries, so the
exact-rational value of `int(delta)` agrees with the float value.
-/

set_option maxRecDepth 16384

namespace SupportAgent

/-! ## Enums from src/models.py -/

/-- Enum `Criticality` (models.py). -/
inductive Criticality where
  | LOW | MEDIUM | HIGH | CRITICAL
deriving DecidableEq, Repr

/-- Enum `SupportLine` (models.py). -/
inductive SupportLine where
  | LINE_1 | LINE_2 | LINE_3
deriving DecidableEq, Repr

/-- Enum `TicketStatus` (models.py). -/
inductive TicketStatus where
  | OPEN | IN_PROGRESS | ESCALATED | RESOLVED | CLOSED
deriving DecidableEq, Repr

/-- Enum `Category` (models.py). -/
inductive Category where
  | TECHNICAL | BILLING | ACCOUNT | FEATURE | BUG | OTHER
deriving DecidableEq, Repr

/-- The `.value` string of a `SupportLine` member. -/
def SupportLine.value : SupportLine → String
  | .LINE_1 => "line_1"
  | .LINE_2 => "line_2"
  | .LINE_3 => "line_3"

/-- The `.value` string of a `TicketStatus` member. -/
def TicketStatus.value : TicketStatus → String
  | .OPEN => "open"
  | .IN_PROGRESS => "in_progress"
  | .ESCALATED => "escalated"
  | .RESOLVED => "resolved"
  | .CLOSED => "closed"

/-- The `.value` string of a `Category` member. -/
def Category.value : Category → String
  | .TECHNICAL => "technical"
  | .BILLING => "billing"
  | .ACCOUNT => "account"
  | .FEATURE => "feature"
  | .BUG => "bug"
  | .OTHER => "other"

/-- The numeric tier of a support line (`line_1` = tier 1, ...);
used to phrase the spec's "tier > 1" condition. -/
def SupportLine.tier : SupportLine → Nat
  | .LINE_1 => 1
  | .LINE_2 => 2
  | .LINE_3 => 3

/-! ## Classifier (src/classifier.py) -/

/-- The fields that `RequestClassifier._parse_json_result` extracts from the
JSON dict produced by the LLM.  Each field is `Option`al because the Python
code reads it with `data.get(key)` / `data.get(key, default)`. -/
structure RawClassification where
  category : Option String
  criticality : Option String
  support_line : Option String
  is_bank_related : Option Bool
  is_new_topic : Option Bool
  needs_offline : Option Bool
deriving DecidableEq, Repr

/-- Outcome of extracting a JSON object from the classifier LLM response:
either a parsed dict, or any of the failure modes caught by the
`except` clause of `_parse_json_result` (no JSON found, `json.loads`
error, type errors). -/
inductive ClsParseOutcome where
  | ok (d : RawClassification)
  | fail
deriving DecidableEq, Repr

/-- The typed classification result returned by
`RequestClassifier._parse_json_result` (reasoning text elided). -/
structure Classification where
  category : Category
  criticality : Criticality
  support_line : SupportLine
  is_bank_related : Bool
  is_new_topic : Bool
  needs_offline : Bool
deriving DecidableEq, Repr

/-- Embeds `RequestClassifier._map_category`: string → `Category`, defaulting to
`OTHER`.  A missing value (`None` in Python, which stringifies to "none")
also falls through to `OTHER`. -/
def map_category : Option String → Category
  | some s =>
    if s.toLower = "technical" then .TECHNICAL
    else if s.toLower = "billing" then .BILLING
    else if s.toLower = "account" then .ACCOUNT
    else if s.toLower = "feature" then .FEATURE
    else if s.toLower = "bug" then .BUG
    else .OTHER
  | none => .OTHER

/-- Embeds `RequestClassifier._map_criticality`: string → `Criticality`,
defaulting to `LOW`. -/
def map_criticality : Option String → Criticality
  | some s =>
    if s.toLower = "low" then .LOW
    else if s.toLower = "medium" then .MEDIUM
    else if s.toLower = "high" then .HIGH
    else if s.toLower = "critical" then .CRITICAL
    else .LOW
  | none => .LOW

/-- Embeds `RequestClassifier._map_support_line`: string → `SupportLine`,
defaulting to `LINE_1`. -/
def map_support_line : Option String → SupportLine
  | some s =>
    if s.toLower = "line_1" then .LINE_1
    else if s.toLower = "line_2" then .LINE_2
    else if s.toLower = "line_3" then .LINE_3
    else .LINE_1
  | none => .LINE_1

/-- Embeds `RequestClassifier._parse_json_result(response, has_history)`:
on a parsed dict, map every field with its per-field default; on any
parsing failure, return the safe default
`{category=OTHER, criticality=LOW, support_line=LINE_1,
is_bank_related=True, is_new_topic=True, needs_offline=False}`. -/
def parse_json_result (o : ClsParseOutcome) (has_history : Bool) : Classification :=
  match o with
  | .ok d =>
    { category := map_category d.category
      criticality := map_criticality d.criticality
      support_line := map_support_line d.support_line
      is_bank_related := d.is_bank_related.getD true
      is_new_topic := d.is_new_topic.getD (!has_history)
      needs_offline := d.needs_offline.getD false }
  | .fail =>
    { category := .OTHER
      criticality := .LOW
      support_line := .LINE_1
      is_bank_related := true
      is_new_topic := true
      needs_offline := false }

/-- Embeds `RequestClassifier.classify` = LLM call + `_parse_json_result`; the
LLM call is external, so `classify` is modelled at the parse step. -/
def classify (o : ClsParseOutcome) (has_history : Bool) : Classification :=
  parse_json_result o has_history

/-- The fields `assess_response` reads from the self-assessment JSON dict,
each `Option`al because read with `data.get(key, default)` / `data.get(key)`. -/
structure AssessData where
  confidence : Option Int
  is_resolved : Option Bool
  needs_escalation : Option Bool
  escalation_reason : Option String
deriving DecidableEq, Repr

/-- Outcome of the self-assessment LLM call in
`RequestClassifier.assess_response`:
`parsed d` — the regex found a JSON block and it loaded;
`noJson`   — the call returned but no JSON block was found
             (the `if json_match:` branch is skipped, no exception);
`genError` — the LLM call or the JSON load raised
             (caught by the `except` clause). -/
inductive AssessOutcome where
  | parsed (d : AssessData)
  | noJson
  | genError
deriving DecidableEq, Repr

/-- The dict returned by `RequestClassifier.assess_response`. -/
structure AssessResult where
  is_resolved : Bool
  confidence : Int
  needs_escalation : Bool
  escalation_reason : Option String
deriving DecidableEq, Repr

/-- The safe default returned by `assess_response` when the self-assessment
call fails or yields no JSON block (classifier.py lines 211-217). -/
def assessDefault : AssessResult :=
  { is_resolved := true
    confidence := 70
    needs_escalation := false
    escalation_reason := none }

/-- Embeds `RequestClassifier.assess_response`.  `confidence_threshold` is the value
of `metrics.get_adaptive_threshold()` fetched at the top of the function;
`support_line` is `classification.get("support_line", SupportLine.LINE_1)`.
Mirrors the Python control flow: on the parsed path, first the adaptive
cutoff (`confidence < threshold and not needs_escalation`), then the forced
escalation for `LINE_2`/`LINE_3`; on both failure paths, the safe default. -/
def assess_response (confidence_threshold : Int) (support_line : SupportLine)
    (o : AssessOutcome) : AssessResult :=
  match o with
  | .parsed d =>
    let confidence : Int := d.confidence.getD 50
    let is_resolved : Bool := d.is_resolved.getD false
    let needs_escalation : Bool := d.needs_escalation.getD false
    let r0 : AssessResult :=
      if confidence < confidence_threshold ∧ needs_escalation = false then
        { is_resolved := false
          confidence := confidence
          needs_escalation := true
          escalation_reason := some ("Confidence " ++ toString confidence ++
            "% < Threshold " ++ toString confidence_threshold ++ "% (Autopilot)") }
      else
        { is_resolved := is_resolved
          confidence := confidence
          needs_escalation := needs_escalation
          escalation_reason := d.escalation_reason }
    if support_line = .LINE_2 ∨ support_line = .LINE_3 then
      { r0 with
        needs_escalation := true
        escalation_reason := some ("Автомаршрутизация на " ++ support_line.value) }
    else r0
  | .noJson => assessDefault
  | .genError => assessDefault

/-! ## MetricsCollector (src/metrics.py) -/

/-- The fields `MetricsCollector.record_request` reads from the
classification dict (category/support_line already stringified the way
`record_request` does with `str(...)`). -/
structure RecClassification where
  category : String
  support_line : String
  is_bank_related : Option Bool
deriving Repr

/-- The field `record_request` reads from the assessment dict;
`assessment.get("needs_escalation")` yields `None` (falsy) when absent. -/
structure RecAssessment where
  needs_escalation : Option Bool
deriving Repr

/-- Counters of `MetricsCollector` (started_at elided; the per-key dicts
`by_category` / `by_line` are modelled as total functions). -/
structure MetricsCollector where
  total_requests : Nat
  ai_resolved : Nat
  escalated : Nat
  off_topic : Nat
  by_category : String → Nat
  by_line : String → Nat

/-- A fresh `MetricsCollector()`: all counters zero, empty dicts. -/
def metricsInit : MetricsCollector :=
  { total_requests := 0
    ai_resolved := 0
    escalated := 0
    off_topic := 0
    by_category := fun _ => 0
    by_line := fun _ => 0 }

/-- Embeds `MetricsCollector.record_request(classification, assessment)`:
increment `total_requests`, bump the per-category and per-line dicts, and
increment exactly one of `off_topic` / `escalated` / `ai_resolved`. -/
def record_request (m : MetricsCollector) (cls : RecClassification)
    (a : RecAssessment) : MetricsCollector :=
  let m1 : MetricsCollector :=
    { m with
      total_requests := m.total_requests + 1
      by_category := fun s =>
        if s = cls.category then m.by_category s + 1 else m.by_category s
      by_line := fun s =>
        if s = cls.support_line then m.by_line s + 1 else m.by_line s }
  if (cls.is_bank_related.getD true) = false then
    { m1 with off_topic := m1.off_topic + 1 }
  else if a.needs_escalation.getD false then
    { m1 with escalated := m1.escalated + 1 }
  else
    { m1 with ai_resolved := m1.ai_resolved + 1 }

/-- The settings fields read by `get_adaptive_threshold` from
`config.settings`.  (The `Settings` class in src/config.py does not
declare these fields; the concrete values used in counterexamples are
the ones the repository's own test `test_adaptive_threshold_logic`
installs: 70 / 0.80 / 50 / 90.) -/
structure GateSettings where
  AI_CONFIDENCE_THRESHOLD : Int
  TARGET_SUCCESS_RATE : ℚ
  MIN_CONFIDENCE_THRESHOLD : Int
  MAX_CONFIDENCE_THRESHOLD : Int
deriving DecidableEq, Repr

/-- Python `int(q)` on a real value: truncation toward zero (floor for
non-negative values, ceiling for negative ones). -/
def pyInt (q : ℚ) : Int := if 0 ≤ q then ⌊q⌋ else ⌈q⌉

/-- Embeds `MetricsCollector.get_adaptive_threshold`, with the float arithmetic
modelled exactly over ℚ.  With fewer than 5 recorded requests the static
default is returned; otherwise
`max(MIN, min(AI_CONFIDENCE_THRESHOLD - int((TARGET - rate) * 50), MAX))`
with `rate = ai_resolved / total_requests`. -/
def get_adaptive_threshold (s : GateSettings)
    (total_requests ai_resolved : Nat) : Int :=
  if total_requests < 5 then s.AI_CONFIDENCE_THRESHOLD
  else
    let current_rate : ℚ := (ai_resolved : ℚ) / (total_requests : ℚ)
    let delta : ℚ := (s.TARGET_SUCCESS_RATE - current_rate) * 50
    let new_threshold : Int := s.AI_CONFIDENCE_THRESHOLD - pyInt delta
    max s.MIN_CONFIDENCE_THRESHOLD
      (min new_threshold s.MAX_CONFIDENCE_THRESHOLD)

/-- Modelled from the spec's words (for comparison with the source
function): "new threshold = `defaultThreshold - round(delta)`, clamped to
`[minThreshold, maxThreshold]`", with `round` rounding to the nearest
integer. -/
def adaptiveThresholdSpecModel (s : GateSettings)
    (total_requests ai_resolved : Nat) : Int :=
  if total_requests < 5 then s.AI_CONFIDENCE_THRESHOLD
  else
    let current_rate : ℚ := (ai_resolved : ℚ) / (total_requests : ℚ)
    let delta : ℚ := (s.TARGET_SUCCESS_RATE - current_rate) * 50
    let new_threshold : Int := s.AI_CONFIDENCE_THRESHOLD - round delta
    max s.MIN_CONFIDENCE_THRESHOLD
      (min new_threshold s.MAX_CONFIDENCE_THRESHOLD)

/-- The settings values installed by the repository's own test
`TestMetrics.test_adaptive_threshold_logic`. -/
def testGateSettings : GateSettings :=
  { AI_CONFIDENCE_THRESHOLD := 70
    TARGET_SUCCESS_RATE := 4/5
    MIN_CONFIDENCE_THRESHOLD := 50
    MAX_CONFIDENCE_THRESHOLD := 90 }

/-! ## EscalationSystem (src/escalation.py) -/

/-- A row of the `tickets` table (src/models.py `Ticket`); timestamps are
abstract `Nat` instants supplied by the caller (`datetime.now`), operator
fields elided (never touched by the operations under study). -/
structure Ticket where
  id : Nat
  title : String
  description : String
  user_id : Int
  user_name : String
  category : Category
  criticality : Criticality
  support_line : SupportLine
  status : TicketStatus
  created_at : Nat
  updated_at : Nat
  resolved_at : Option Nat
  conversation_history : String
deriving DecidableEq, Repr

/-- A row of the `ticket_responses` table (src/models.py `TicketResponse`). -/
structure TicketResponse where
  ticket_id : Nat
  operator_id : Int
  operator_name : String
  message : String
deriving DecidableEq, Repr

/-- An entry of the ChromaDB collection `active_tickets_vectors`: id,
document text, and the metadata fields the code writes
(`{"status": ..., "user_id": ...}`). -/
structure SimEntry where
  id : Nat
  document : String
  status : String
  user_id : Int
deriving DecidableEq, Repr

/-- The ChromaDB collection together with failure switches for its
operations: `queryOk = false` models `collection.query` raising (caught in
`find_similar_open_ticket`), `addOk = false` models `collection.add`
raising, and likewise for `update` / `delete` (raised out of
`update_ticket_status` after the DB commit). -/
structure SimService where
  entries : List SimEntry
  queryOk : Bool
  addOk : Bool
  updateOk : Bool
  deleteOk : Bool
deriving DecidableEq, Repr

/-- State of an `EscalationSystem`: the SQL store (tickets + responses),
the optional Chroma collection (`none` = `self.collection is None`), and
the autoincrement counter for ticket primary keys. -/
structure EscState where
  db : List Ticket
  responses : List TicketResponse
  collection : Option SimService
  nextId : Nat
deriving DecidableEq, Repr

/-- A fresh system over an empty database (autoincrement starts at 1),
with collection `c`. -/
def escInit (c : Option SimService) : EscState :=
  { db := [], responses := [], collection := c, nextId := 1 }

/-- Embeds `EscalationSystem.get_ticket_by_id`: first ticket with the given
primary key. -/
def getTicketById (db : List Ticket) (tid : Nat) : Option Ticket :=
  db.find? (fun t => t.id = tid)

/-- Nearest neighbour (`n_results=1`) among a list of entries, for an
abstract distance function `dist` supplied by the embedding model;
returns the entry and its distance. -/
def nearestEntry (dist : String → String → ℚ) (q : String) :
    List SimEntry → Option (SimEntry × ℚ)
  | [] => none
  | e :: es =>
    let de := dist q e.document
    match nearestEntry dist q es with
    | none => some (e, de)
    | some (b, db) => if de ≤ db then some (e, de) else some (b, db)

/-- Embeds `EscalationSystem.find_similar_open_ticket(text, threshold=0.4)`:
`None` when the collection is missing or the query raises; otherwise
query the collection with `where={"status": "open"}` for the nearest
entry to `"query: " + text`, and return the matching ticket when the
distance is below the threshold. -/
def find_similar_open_ticket (dist : String → String → ℚ) (st : EscState)
    (text : String) (threshold : ℚ := 2/5) : Option Ticket :=
  match st.collection with
  | none => none
  | some svc =>
    if svc.queryOk = false then none
    else
      let query_text := "query: " ++ text
      let eligible := svc.entries.filter (fun e => e.status = "open")
      match nearestEntry dist query_text eligible with
      | none => none
      | some (e, d) =>
        if d < threshold then getTicketById st.db e.id else none

/-- Argument record of `EscalationSystem.create_ticket` (the
`conversation_history` argument already serialized to its JSON dump,
as `json.dumps` is external string formatting). -/
structure CreateArgs where
  title : String
  description : String
  user_id : Int
  user_name : String
  category : Category
  criticality : Criticality
  support_line : SupportLine
  history_json : String
  allow_grouping : Bool
deriving Repr

/-- The fresh `Ticket` row built on the non-merge path of `create_ticket`:
title truncated to 255 characters, status `OPEN`, primary key from the
autoincrement counter. -/
def freshTicket (st : EscState) (now : Nat) (a : CreateArgs) : Ticket :=
  { id := st.nextId
    title := a.title.take 255
    description := a.description
    user_id := a.user_id
    user_name := a.user_name
    category := a.category
    criticality := a.criticality
    support_line := a.support_line
    status := .OPEN
    created_at := now
    updated_at := now
    resolved_at := none
    conversation_history := a.history_json }

/-- The system notification appended to a ticket on the merge path. -/
def dedupResponse (tid : Nat) (a : CreateArgs) : TicketResponse :=
  { ticket_id := tid
    operator_id := 0
    operator_name := "System (Deduplication)"
    message := "📢 Повторное обращение от пользователя " ++ a.user_name ++
      " (ID: " ++ toString a.user_id ++ ").\n" ++
      "Текст запроса синхронизирован: " ++ a.description }

/-- Embeds `EscalationSystem.create_ticket`.  Returns the post-state and, as an
`Except`, either the ticket with its `is_new` flag or the exception
re-raised from the fresh path.  Merge path: when grouping is allowed and a
similar open ticket is found, append a system response, refresh its
`updated_at`, commit, and return `(ticket, False)`.  Fresh path: build the
`OPEN` ticket, commit it, then register its vector in the collection; a
failure of `collection.add` raises after the commit, so the row stays in
the database while the caller sees the exception. -/
def create_ticket (dist : String → String → ℚ) (st : EscState) (now : Nat)
    (a : CreateArgs) : EscState × Except Unit (Ticket × Bool) :=
  let grouped : Option Ticket :=
    if a.allow_grouping then find_similar_open_ticket dist st a.description
    else none
  match grouped with
  | some t =>
    let t' := { t with updated_at := now }
    let st' :=
      { st with
        db := st.db.map (fun x => if x.id = t.id then t' else x)
        responses := st.responses ++ [dedupResponse t.id a] }
    (st', .ok (t', false))
  | none =>
    let ticket := freshTicket st now a
    let committed : EscState :=
      { st with db := st.db ++ [ticket], nextId := st.nextId + 1 }
    match committed.collection with
    | none => (committed, .ok (ticket, true))
    | some svc =>
      if svc.addOk then
        let entry : SimEntry :=
          { id := ticket.id
            document := a.description
            status := "open"
            user_id := a.user_id }
        ({ committed with
            collection := some { svc with entries := svc.entries ++ [entry] } },
          .ok (ticket, true))
      else (committed, .error ())

/-- Embeds `EscalationSystem.update_ticket_status(ticket_id, status)`.  The row is
fetched, its status replaced unconditionally, `updated_at` refreshed, and
`resolved_at` stamped whenever the target status is `RESOLVED`; the commit
happens before the collection synchronization, so a failing collection
operation raises with the row change already durable.  For
`CLOSED`/`RESOLVED` the collection entry is deleted; for other statuses
its metadata is rewritten with the new status string. -/
def update_ticket_status (st : EscState) (now : Nat) (tid : Nat)
    (status : TicketStatus) : EscState × Except Unit (Option Ticket) :=
  match getTicketById st.db tid with
  | none => (st, .ok none)
  | some t =>
    let t' : Ticket :=
      { t with
        status := status
        updated_at := now
        resolved_at := if status = .RESOLVED then some now else t.resolved_at }
    let committed : EscState :=
      { st with db := st.db.map (fun x => if x.id = tid then t' else x) }
    match committed.collection with
    | none => (committed, .ok (some t'))
    | some svc =>
      if status = .CLOSED ∨ status = .RESOLVED then
        if svc.deleteOk then
          ({ committed with
              collection :=
                some { svc with entries := svc.entries.filter (fun e => e.id ≠ tid) } },
            .ok (some t'))
        else (committed, .error ())
      else
        if svc.updateOk then
          ({ committed with
              collection :=
                some { svc with
                  entries := svc.entries.map (fun e =>
                    if e.id = tid then
                      { e with status := status.value, user_id := t.user_id }
                    else e) } },
            .ok (some t'))
        else (committed, .error ())

/-- One per-line record of `EscalationSystem.get_queue_stats`. -/
structure QueueStat where
  total : Nat
  openCount : Nat
deriving DecidableEq, Repr

/-- Embeds `EscalationSystem.get_queue_stats`, per support line: `total` counts the
line's tickets whose status is not `CLOSED`, `open` counts those whose
status is `OPEN`. -/
def get_queue_stats (db : List Ticket) (line : SupportLine) : QueueStat :=
  { total :=
      (db.filter (fun t => t.support_line = line ∧ t.status ≠ .CLOSED)).length
    openCount :=
      (db.filter (fun t => t.support_line = line ∧ t.status = .OPEN)).length }

/-! ### Lifecycle operation language (for reachability claims) -/

/-- A lifecycle operation of the `EscalationSystem`. -/
inductive EscOp where
  | create (a : CreateArgs)
  | updateStatus (tid : Nat) (status : TicketStatus)

/-- State effect of one operation invoked at instant `now` (the committed
state is kept whether or not the call raised, as in the source, where the
commit precedes any raising collection call). -/
def escStep (dist : String → String → ℚ) (st : EscState) (p : Nat × EscOp) :
    EscState :=
  match p.2 with
  | .create a => (create_ticket dist st p.1 a).1
  | .updateStatus tid s => (update_ticket_status st p.1 tid s).1

/-- Run a timed sequence of lifecycle operations. -/
def escRun (dist : String → String → ℚ) (st : EscState)
    (ops : List (Nat × EscOp)) : EscState :=
  ops.foldl (escStep dist) st

/-! ## Request-handling core (src/handlers/user.py, `process_user_request_core`)

The Telegram I/O, the RAG context lookup, and the in-memory conversation
cache are external; the model keeps the decision chain
classification → domain check → self-assessment → metrics → conditional
escalation. -/

/-- What the handler sends back: a rejection for off-topic requests, or an
answered request with its assessment and, when a ticket was
created/merged, the ticket id with its `is_new` flag (the reference is
`none` when no escalation was needed or `create_ticket` raised). -/
inductive Disposition where
  | rejected
  | answered (assessment : AssessResult) (ticketRef : Option (Nat × Bool))
deriving DecidableEq, Repr

/-- The string rendering of an optional escalation reason inside the
f-string of the ticket description (`None` renders as "None"; the
`.get(..., 'Не определена')` default never fires because the assessment
dict always carries the key). -/
def reasonText : Option String → String
  | some s => s
  | none => "None"

/-- The `create_ticket` arguments built in the escalation branch of
`process_user_request_core`. -/
def coreTicketArgs (cls : Classification) (uid : Int) (uname text answer : String)
    (reason : Option String) (history_json : String) : CreateArgs :=
  { title := "[" ++ cls.support_line.value.toUpper ++ "] " ++ text.take 50 ++ "..."
    description := "Запрос: " ++ text ++ "\n\nОтвет ИИ: " ++ answer ++
      "\n\nПричина эскалации: " ++ reasonText reason
    user_id := uid
    user_name := uname
    category := cls.category
    criticality := cls.criticality
    support_line := cls.support_line
    history_json := history_json
    allow_grouping := true }

/-- Embeds `process_user_request_core`: reject off-topic requests before any
persistence; otherwise self-assess the drafted answer, record the metrics
sample, and create/merge a ticket exactly when the assessment demands
escalation (a raising `create_ticket` is caught and leaves no ticket
reference). `thr` is the adaptive threshold in force, `o` the
self-assessment LLM outcome, `answer` the drafted answer text. -/
def process_user_request_core (dist : String → String → ℚ) (thr : Int)
    (cls : Classification) (o : AssessOutcome) (st : EscState)
    (m : MetricsCollector) (uid : Int) (uname text answer history_json : String)
    (now : Nat) : EscState × MetricsCollector × Disposition :=
  if cls.is_bank_related = false then (st, m, .rejected)
  else
    let assessment := assess_response thr cls.support_line o
    let m' := record_request m
      { category := cls.category.value
        support_line := cls.support_line.value
        is_bank_related := some cls.is_bank_related }
      { needs_escalation := some assessment.needs_escalation }
    if assessment.needs_escalation then
      match create_ticket dist st now
        (coreTicketArgs cls uid uname text answer assessment.escalation_reason
          history_json) with
      | (st', .ok (t, isNew)) => (st', m', .answered assessment (some (t.id, isNew)))
      | (st', .error _) => (st', m', .answered assessment none)
    else (st, m', .answered assessment none)

/-! ## Concrete inputs for counterexamples and witnesses -/

/-- Degenerate distance oracle: every pair of texts at distance 0
(a perfect semantic match everywhere). -/
def distZero : String → String → ℚ := fun _ _ => 0

/-- A fully available similarity collection with no entries. -/
def svcEmpty : SimService :=
  { entries := [], queryOk := true, addOk := true, updateOk := true, deleteOk := true }

/-- Concrete `create_ticket` arguments used in scenarios. -/
def argsA : CreateArgs :=
  { title := "card question"
    description := "help with card"
    user_id := 7
    user_name := "alex"
    category := .TECHNICAL
    criticality := .MEDIUM
    support_line := .LINE_1
    history_json := "[]"
    allow_grouping := true }

/-- A ticket already in status `RESOLVED` (resolved at instant 5). -/
def resolvedTicketA : Ticket :=
  { id := 1
    title := "card question"
    description := "help with card"
    user_id := 7
    user_name := "alex"
    category := .TECHNICAL
    criticality := .MEDIUM
    support_line := .LINE_1
    status := .RESOLVED
    created_at := 1
    updated_at := 5
    resolved_at := some 5
    conversation_history := "[]" }

/-- A store holding just `resolvedTicketA`, no similarity collection. -/
def stResolved : EscState :=
  { db := [resolvedTicketA], responses := [], collection := none, nextId := 2 }

/-! ## Theorems for the claims -/

/-- C1 (counterexample): the claim asserts that a classification routed
above tier 1 forces `needsEscalation = true` universally, including
requests whose self-assessment call fails — but on the failure path
`assess_response` returns the optimistic default with
`needs_escalation = false` even for a `LINE_2` classification. -/
theorem assess_tier_forcing_fails_on_error :
    1 < SupportLine.tier .LINE_2
    ∧ (assess_response 70 .LINE_2 .genError).needs_escalation = false :=
  ⟨by decide, rfl⟩

/-- C1 (amended): on successfully parsed self-assessments the escalation
decision is exactly `needsEscalationHint ∨ confidence < threshold ∨
tier > 1`; when the self-assessment call fails or yields no JSON block,
the optimistic default applies and `needs_escalation = false` regardless
of the tier. -/
theorem assess_needs_escalation_characterization (thr : Int)
    (line : SupportLine) (d : AssessData) :
    ((assess_response thr line (.parsed d)).needs_escalation
      = (d.needs_escalation.getD false || decide (d.confidence.getD 50 < thr)
          || decide (1 < line.tier)))
    ∧ assess_response thr line .noJson = assessDefault
    ∧ assess_response thr line .genError = assessDefault := by
  refine ⟨?_, rfl, rfl⟩
  cases line <;>
    · simp only [assess_response]
      by_cases hc : (d.confidence.getD 50 : Int) < thr <;>
        cases hne : d.needs_escalation.getD false <;>
          simp [hc, hne, SupportLine.tier]

/-- C8: a malformed or unparseable classification yields the safe default
`{category=OTHER, criticality=LOW, support_line=LINE_1}` (with
`is_bank_related=true`), and a failed self-assessment call — whether the
call raised or produced no JSON block — yields the optimistic default
`{is_resolved=true, confidence=70, needs_escalation=false}`.  Both
embeddings are total functions, so neither failure propagates as an
error. -/
theorem classifier_failure_defaults (h : Bool) (thr : Int) (line : SupportLine) :
    classify .fail h
      = { category := .OTHER, criticality := .LOW, support_line := .LINE_1,
          is_bank_related := true, is_new_topic := true, needs_offline := false }
    ∧ assess_response thr line .genError
      = { is_resolved := true, confidence := 70, needs_escalation := false,
          escalation_reason := none }
    ∧ assess_response thr line .noJson
      = { is_resolved := true, confidence := 70, needs_escalation := false,
          escalation_reason := none } :=
  ⟨rfl, rfl, rfl⟩

/-- C9: for every support line, `get_queue_stats` counts in `total` the
line's tickets in any of the four statuses `OPEN`, `IN_PROGRESS`,
`ESCALATED`, `RESOLVED` (so `RESOLVED` tickets are counted in `total`),
and counts in `open` exactly the line's `OPEN` tickets. -/
theorem queue_stats_characterization (db : List Ticket) (line : SupportLine) :
    (get_queue_stats db line).total
      = db.countP (fun t => t.support_line = line ∧
          (t.status = .OPEN ∨ t.status = .IN_PROGRESS ∨
            t.status = .ESCALATED ∨ t.status = .RESOLVED))
    ∧ (get_queue_stats db line).openCount
      = db.countP (fun t => t.support_line = line ∧ t.status = .OPEN) := by
  constructor
  · show (db.filter _).length = _
    rw [← List.countP_eq_length_filter]
    apply List.countP_congr
    intro t _
    cases ht : t.status <;> simp [ht]
  · show (db.filter _).length = _
    rw [← List.countP_eq_length_filter]

/-- Helper: `record_request` preserves the counter balance
`total_requests = off_topic + escalated + ai_resolved`. -/
theorem record_request_preserves_sum (m : MetricsCollector)
    (c : RecClassification) (a : RecAssessment)
    (h : m.total_requests = m.off_topic + m.escalated + m.ai_resolved) :
    (record_request m c a).total_requests
      = (record_request m c a).off_topic + (record_request m c a).escalated
          + (record_request m c a).ai_resolved := by
  unfold record_request
  by_cases h1 : (c.is_bank_related.getD true) = false <;>
    by_cases h2 : a.needs_escalation.getD false <;>
      simp [h1, h2, h] <;> omega

/-- Helper: the counter balance holds after folding any batch of
`record_request` calls over a state that already satisfies it. -/
theorem metrics_fold_invariant (l : List (RecClassification × RecAssessment)) :
    ∀ m : MetricsCollector,
      m.total_requests = m.off_topic + m.escalated + m.ai_resolved →
      (l.foldl (fun m p => record_request m p.1 p.2) m).total_requests
        = (l.foldl (fun m p => record_request m p.1 p.2) m).off_topic
            + (l.foldl (fun m p => record_request m p.1 p.2) m).escalated
            + (l.foldl (fun m p => record_request m p.1 p.2) m).ai_resolved := by
  induction l with
  | nil => intro m h; simpa using h
  | cons p l ih =>
    intro m h
    exact ih _ (record_request_preserves_sum m p.1 p.2 h)

/-- C10: every `record_request` call increments `total_requests` by one and
exactly one of the three outcome counters, and consequently, starting
from a fresh `MetricsCollector`, after any sequence of calls
`total_requests = off_topic + escalated + ai_resolved`. -/
theorem record_request_counter_invariant :
    (∀ (m : MetricsCollector) (c : RecClassification) (a : RecAssessment),
      (record_request m c a).total_requests = m.total_requests + 1
      ∧ (((record_request m c a).off_topic = m.off_topic + 1
            ∧ (record_request m c a).escalated = m.escalated
            ∧ (record_request m c a).ai_resolved = m.ai_resolved)
        ∨ ((record_request m c a).off_topic = m.off_topic
            ∧ (record_request m c a).escalated = m.escalated + 1
            ∧ (record_request m c a).ai_resolved = m.ai_resolved)
        ∨ ((record_request m c a).off_topic = m.off_topic
            ∧ (record_request m c a).escalated = m.escalated
            ∧ (record_request m c a).ai_resolved = m.ai_resolved + 1)))
    ∧ ∀ l : List (RecClassification × RecAssessment),
        (l.foldl (fun m p => record_request m p.1 p.2) metricsInit).total_requests
          = (l.foldl (fun m p => record_request m p.1 p.2) metricsInit).off_topic
              + (l.foldl (fun m p => record_request m p.1 p.2) metricsInit).escalated
              + (l.foldl (fun m p => record_request m p.1 p.2) metricsInit).ai_resolved := by
  constructor
  · intro m c a
    unfold record_request
    by_cases h1 : (c.is_bank_related.getD true) = false <;>
      by_cases h2 : a.needs_escalation.getD false <;>
        simp [h1, h2]
  · intro l
    exact metrics_fold_invariant l metricsInit rfl

/-- C2 (counterexample): the code truncates the correction toward zero
(Python `int()`), the claim says it rounds.  With the settings the
repository's own test installs (default 70, target 0.8, clamp [50, 90])
and 3 auto-resolved outcomes out of 7, the correction is
`(0.8 - 3/7) * 50 = 130/7 ≈ 18.571`: the code returns `70 - 18 = 52`,
the claimed formula returns `70 - 19 = 51`.  (The exact value is more
than half a unit from the nearest integer, so modelling the float
arithmetic with exact rationals cannot change either side.) -/
theorem adaptive_threshold_trunc_vs_round :
    get_adaptive_threshold testGateSettings 7 3 = 52
    ∧ adaptiveThresholdSpecModel testGateSettings 7 3 = 51
    ∧ (52 : Int) ≠ 51 := by
  refine ⟨?_, ?_, by decide⟩
  · have h18 : pyInt ((130 : ℚ)/7) = 18 := by norm_num [pyInt]
    norm_num [get_adaptive_threshold, testGateSettings, h18]
  · have h19 : round ((130 : ℚ)/7) = 19 := by norm_num [round_eq]
    norm_num [adaptiveThresholdSpecModel, testGateSettings, h19]

/-- C2 (amended): with fewer than 5 recorded requests the static default is
returned untouched; otherwise the threshold is
`defaultThreshold - trunc((targetRate - currentRate) * 50)` — truncation
toward zero, not rounding — clamped to `[minThreshold, maxThreshold]`,
with `currentRate = ai_resolved / total_requests`; in particular at
`currentRate = targetRate` the default is returned (provided the default
lies within the clamp interval). -/
theorem adaptive_threshold_contract (s : GateSettings) (total auto : Nat) :
    (total < 5 → get_adaptive_threshold s total auto = s.AI_CONFIDENCE_THRESHOLD)
    ∧ (5 ≤ total →
        get_adaptive_threshold s total auto
          = max s.MIN_CONFIDENCE_THRESHOLD
              (min (s.AI_CONFIDENCE_THRESHOLD
                  - pyInt ((s.TARGET_SUCCESS_RATE - (auto : ℚ) / (total : ℚ)) * 50))
                s.MAX_CONFIDENCE_THRESHOLD))
    ∧ (5 ≤ total → (auto : ℚ) / (total : ℚ) = s.TARGET_SUCCESS_RATE →
        s.MIN_CONFIDENCE_THRESHOLD ≤ s.AI_CONFIDENCE_THRESHOLD →
        s.AI_CONFIDENCE_THRESHOLD ≤ s.MAX_CONFIDENCE_THRESHOLD →
        get_adaptive_threshold s total auto = s.AI_CONFIDENCE_THRESHOLD) := by
  refine ⟨fun h => by simp [get_adaptive_threshold, h], ?_, ?_⟩
  · intro h
    simp [get_adaptive_threshold, Nat.not_lt.2 h]
  · intro h hrate hmin hmax
    have hz : (s.TARGET_SUCCESS_RATE - (auto : ℚ) / (total : ℚ)) * 50 = 0 := by
      rw [hrate]; ring
    simp [get_adaptive_threshold, Nat.not_lt.2 h, hz]
    rw [show pyInt 0 = 0 from rfl]
    rw [sub_zero, min_eq_left hmax, max_eq_right hmin]

/-- Witness for `adaptive_threshold_contract`: with the repository's test
settings, 2 recorded requests return the default 70, and 8 auto-resolved
out of 10 (exactly the 0.8 target) also return 70. -/
theorem adaptive_threshold_contract_witness :
    get_adaptive_threshold testGateSettings 2 1 = 70
    ∧ get_adaptive_threshold testGateSettings 10 8 = 70 := by
  refine ⟨(adaptive_threshold_contract testGateSettings 2 1).1 (by decide),
    (adaptive_threshold_contract testGateSettings 10 8).2.2 (by decide)
      ?_ (by decide) (by decide)⟩
  norm_num [testGateSettings]

/-- Helper: looking up `tid` after replacing every row with that primary
key yields the replacement row. -/
theorem getTicketById_map_replace (db : List Ticket) (tid : Nat)
    (t t' : Ticket) (h : getTicketById db tid = some t) (ht' : t'.id = tid) :
    getTicketById (db.map (fun x => if x.id = tid then t' else x)) tid
      = some t' := by
  induction db with
  | nil => simp [getTicketById] at h
  | cons x xs ih =>
    by_cases hx : x.id = tid
    · simp [getTicketById, hx, ht']
    · have h' : getTicketById xs tid = some t := by
        simpa [getTicketById, hx] using h
      simpa [getTicketById, hx] using ih h'

/-- Helper: whatever the collection does afterwards, the database part of
`update_ticket_status` is the committed row replacement. -/
theorem update_ticket_status_db (st : EscState) (now tid : Nat)
    (s : TicketStatus) (t : Ticket) (h : getTicketById st.db tid = some t) :
    (update_ticket_status st now tid s).1.db
      = st.db.map (fun x => if x.id = tid then
          { t with
            status := s
            updated_at := now
            resolved_at := if s = .RESOLVED then some now else t.resolved_at }
          else x) := by
  unfold update_ticket_status
  rw [h]
  cases hcol : st.collection with
  | none => simp [hcol]
  | some svc =>
    simp only [hcol]
    by_cases hterm : s = .CLOSED ∨ s = .RESOLVED <;>
      simp [hterm] <;> split <;> rfl

/-- C3 (counterexample): `update_ticket_status` enforces no terminality —
the `RESOLVED` ticket of `stResolved` is moved back to `OPEN` on request
— and re-invoking resolve on it is not side-effect free: its
`resolved_at` stamp moves from instant 5 to instant 9. -/
theorem terminal_status_not_enforced :
    (getTicketById (update_ticket_status stResolved 9 1 .OPEN).1.db 1).map
        (fun t => t.status) = some .OPEN
    ∧ (getTicketById (update_ticket_status stResolved 9 1 .RESOLVED).1.db 1).map
        (fun t => t.resolved_at) = some (some 9)
    ∧ resolvedTicketA.resolved_at = some 5 :=
  ⟨rfl, rfl, rfl⟩

/-- C3 (amended): `Resolved` and `Closed` are not terminal in the code:
`update_ticket_status` applies any requested status to any existing
ticket unconditionally, refreshing `updated_at` and re-stamping
`resolved_at` whenever the target is `RESOLVED`; hence re-invoking
resolve on an already-`RESOLVED` ticket returns success but has side
effects (both timestamps move). -/
theorem update_ticket_status_unconditional (st : EscState) (now tid : Nat)
    (s : TicketStatus) (t : Ticket) (h : getTicketById st.db tid = some t) :
    getTicketById (update_ticket_status st now tid s).1.db tid
      = some { t with
               status := s
               updated_at := now
               resolved_at := if s = .RESOLVED then some now else t.resolved_at } := by
  rw [update_ticket_status_db st now tid s t h]
  have htid : t.id = tid := by
    have := List.find?_some h
    simpa using this
  exact getTicketById_map_replace st.db tid t _ h htid

/-- Witness for `update_ticket_status_unconditional`: moving the resolved
ticket of `stResolved` to `OPEN` yields the updated row. -/
theorem update_ticket_status_unconditional_witness :
    getTicketById (update_ticket_status stResolved 9 1 .OPEN).1.db 1
      = some { resolvedTicketA with
               status := .OPEN
               updated_at := 9
               resolved_at := if TicketStatus.OPEN = TicketStatus.RESOLVED
                 then some 9 else resolvedTicketA.resolved_at } :=
  update_ticket_status_unconditional stResolved 9 1 .OPEN resolvedTicketA rfl

/-- Helper: a ticket returned by the deduplication lookup is a row of the
database. -/
theorem find_similar_mem (dist : String → String → ℚ) (st : EscState)
    (text : String) (th : ℚ) (t : Ticket)
    (h : find_similar_open_ticket dist st text th = some t) : t ∈ st.db := by
  unfold find_similar_open_ticket at h
  cases hcol : st.collection with
  | none => rw [hcol] at h; exact absurd h (by simp)
  | some svc =>
    rw [hcol] at h
    by_cases hq : svc.queryOk = false
    · simp [hq] at h
    · simp only [hq, if_false] at h
      cases hne : nearestEntry dist ("query: " ++ text)
          (svc.entries.filter (fun e => e.status = "open")) with
      | none => rw [hne] at h; exact absurd h (by simp)
      | some p =>
        rw [hne] at h
        by_cases hd : p.2 < th
        · simp only [hd, if_true] at h
          exact List.mem_of_find?_eq_some h
        · simp [hd] at h

/-- The state invariant behind claim C5: every `RESOLVED` row carries a
`resolved_at` stamp. -/
def ResolvedStamped (st : EscState) : Prop :=
  ∀ t ∈ st.db, t.status = .RESOLVED → t.resolved_at ≠ none

/-- Helper: one lifecycle operation preserves `ResolvedStamped`. -/
theorem escStep_preserves_stamp (dist : String → String → ℚ) (st : EscState)
    (p : Nat × EscOp) (h : ResolvedStamped st) :
    ResolvedStamped (escStep dist st p) := by
  obtain ⟨now, op⟩ := p
  cases op with
  | create a =>
    show ResolvedStamped (create_ticket dist st now a).1
    unfold create_ticket
    cases hg : (if a.allow_grouping then
        find_similar_open_ticket dist st a.description else none) with
    | some t =>
      have htmem : t ∈ st.db := by
        by_cases hag : a.allow_grouping
        · exact find_similar_mem dist st a.description _ t (by simpa [hag] using hg)
        · simp [hag] at hg
      simp only [hg]
      intro u hu hres
      rcases List.mem_map.1 hu with ⟨x, hx, hxu⟩
      by_cases hxid : x.id = t.id
      · rw [← hxu]
        simp only [hxid, if_true]
        exact h t htmem (by simpa [hxid, ← hxu, hxid] using hres)
      · rw [← hxu]
        simp only [hxid, if_false]
        exact h x hx (by simpa [hxid, ← hxu] using hres)
    | none =>
      simp only [hg]
      intro u hu hres
      cases hcol : st.collection with
      | none =>
        simp only [hcol] at hu
        rcases List.mem_append.1 hu with hu' | hu'
        · exact h u hu' hres
        · rw [List.mem_singleton.1 hu'] at hres
          exact absurd hres (by simp [freshTicket])
      | some svc =>
        simp only [hcol] at hu
        by_cases hadd : svc.addOk <;> simp only [hadd, if_true, if_false] at hu <;>
          · rcases List.mem_append.1 hu with hu' | hu'
            · exact h u hu' hres
            · rw [List.mem_singleton.1 hu'] at hres
              exact absurd hres (by simp [freshTicket])
  | updateStatus tid s =>
    show ResolvedStamped (update_ticket_status st now tid s).1
    cases hget : getTicketById st.db tid with
    | none =>
      unfold update_ticket_status
      simp only [hget]
      exact h
    | some t =>
      have hdb := update_ticket_status_db st now tid s t hget
      intro u hu hres
      rw [hdb] at hu
      rcases List.mem_map.1 hu with ⟨x, hx, hxu⟩
      by_cases hxid : x.id = tid
      · rw [← hxu] at hres ⊢
        simp only [hxid, if_true] at hres ⊢
        by_cases hs : s = .RESOLVED
        · simp [hs]
        · exact absurd (by simpa using hres) hs
      · rw [← hxu] at hres ⊢
        simp only [hxid, if_false] at hres ⊢
        exact h x hx hres

/-- Helper: `ResolvedStamped` is preserved by whole operation sequences. -/
theorem escRun_preserves_stamp (dist : String → String → ℚ)
    (ops : List (Nat × EscOp)) :
    ∀ st : EscState, ResolvedStamped st → ResolvedStamped (escRun dist st ops) := by
  induction ops with
  | nil => intro st h; exact h
  | cons p ops ih =>
    intro st h
    exact ih _ (escStep_preserves_stamp dist st p h)

/-- C5 (counterexample): the claimed iff fails on reachable states —
creating a ticket, resolving it at instant 2 and closing it at instant 3
leaves a ticket whose status is `CLOSED` while `resolved_at` is still
non-null. -/
theorem resolved_at_persists_after_close :
    (getTicketById (escRun distZero (escInit none)
        [(1, .create argsA), (2, .updateStatus 1 .RESOLVED),
          (3, .updateStatus 1 .CLOSED)]).db 1).map
        (fun t => (t.status, t.resolved_at)) = some (.CLOSED, some 2)
    ∧ TicketStatus.CLOSED ≠ TicketStatus.RESOLVED :=
  ⟨rfl, by decide⟩

/-- C5 (amended): the forward implication is an invariant of every
reachable state — every ticket whose status is `RESOLVED` has a non-null
`resolved_at` — but the converse direction of the claimed iff does not
hold, since `resolved_at` survives any later transition out of
`RESOLVED` (see the counterexample). -/
theorem resolved_status_implies_stamp (dist : String → String → ℚ)
    (c : Option SimService) (ops : List (Nat × EscOp)) :
    ∀ t ∈ (escRun dist (escInit c) ops).db,
      t.status = .RESOLVED → t.resolved_at ≠ none :=
  escRun_preserves_stamp dist ops (escInit c) (by intro t ht; simp [escInit] at ht)

/-- Witness for `resolved_status_implies_stamp`: the ticket produced by
create-then-resolve is `RESOLVED` and indeed carries the stamp. -/
theorem resolved_status_implies_stamp_witness :
    ({ id := 1, title := "card question", description := "help with card",
       user_id := 7, user_name := "alex", category := .TECHNICAL,
       criticality := .MEDIUM, support_line := .LINE_1, status := .RESOLVED,
       created_at := 1, updated_at := 2, resolved_at := some 2,
       conversation_history := "[]" } : Ticket).resolved_at ≠ none :=
  resolved_status_implies_stamp distZero none
    [(1, .create argsA), (2, .updateStatus 1 .RESOLVED)] _ (by decide) rfl

/-- Helper: the nearest-neighbour search returns an element of the list it
searched. -/
theorem nearestEntry_mem (dist : String → String → ℚ) (q : String)
    (l : List SimEntry) (e : SimEntry) (d : ℚ)
    (h : nearestEntry dist q l = some (e, d)) : e ∈ l := by
  induction l generalizing e d with
  | nil => simp [nearestEntry] at h
  | cons x xs ih =>
    unfold nearestEntry at h
    cases hne : nearestEntry dist q xs with
    | none =>
      rw [hne] at h
      simp only [Option.some.injEq, Prod.mk.injEq] at h
      exact h.1 ▸ List.mem_cons_self x xs
    | some p =>
      obtain ⟨b, db⟩ := p
      rw [hne] at h
      by_cases hle : dist q x.document ≤ db
      · simp only [hle, if_true, Option.some.injEq, Prod.mk.injEq] at h
        exact h.1 ▸ List.mem_cons_self x xs
      · simp only [hle, if_false, Option.some.injEq, Prod.mk.injEq] at h
        exact List.mem_cons_of_mem x (ih e d (by rw [hne, h.1, h.2]))

/-- The two-ticket scenario behind the C4 counterexample: a ticket is
created (its vector registered with metadata status "open") and then
moved to `IN_PROGRESS`, which rewrites the vector metadata to
"in_progress" while keeping the entry. -/
def stInProgress : EscState :=
  escRun distZero (escInit (some svcEmpty))
    [(1, .create argsA), (2, .updateStatus 1 .IN_PROGRESS)]

/-- C4 (counterexample): the similarity query filters on
`{"status": "open"}` only.  In `stInProgress` a case identical to the
incoming description (distance 0, far below the 0.4 merge threshold)
sits in status `IN_PROGRESS` with its index entry retained, yet the
lookup finds nothing and `create_ticket` takes the fresh path, creating
a second case instead of merging. -/
theorem dedup_ignores_in_progress :
    (getTicketById stInProgress.db 1).map (fun t => t.status)
        = some .IN_PROGRESS
    ∧ (stInProgress.collection.map (fun svc =>
          svc.entries.map (fun e => (e.id, e.status))))
        = some [(1, "in_progress")]
    ∧ distZero ("query: " ++ argsA.description) "help with card" < 2/5
    ∧ find_similar_open_ticket distZero stInProgress argsA.description = none
    ∧ (create_ticket distZero stInProgress 3 argsA).1.db.map (fun t => t.id)
        = [1, 2] :=
  ⟨rfl, rfl, by norm_num [distZero], rfl, rfl⟩

/-- C4 (amended): only index entries whose metadata status is "open" are
deduplication candidates: whenever the lookup returns a ticket, that
ticket corresponds to an entry with status "open" in the configured
collection (so sufficiently similar cases in `InProgress` or `Escalated`
are not merged into; a new case is created for them). -/
theorem dedup_only_open_entries (dist : String → String → ℚ) (st : EscState)
    (text : String) (th : ℚ) (t : Ticket)
    (h : find_similar_open_ticket dist st text th = some t) :
    ∃ svc e, st.collection = some svc ∧ svc.queryOk = true
      ∧ e ∈ svc.entries ∧ e.status = "open"
      ∧ getTicketById st.db e.id = some t := by
  unfold find_similar_open_ticket at h
  cases hcol : st.collection with
  | none => rw [hcol] at h; exact absurd h (by simp)
  | some svc =>
    rw [hcol] at h
    by_cases hq : svc.queryOk = false
    · simp [hq] at h
    · simp only [hq, if_false] at h
      cases hne : nearestEntry dist ("query: " ++ text)
          (svc.entries.filter (fun e => e.status = "open")) with
      | none => rw [hne] at h; exact absurd h (by simp)
      | some p =>
        obtain ⟨e, d⟩ := p
        rw [hne] at h
        by_cases hd : d < th
        · simp only [hd, if_true] at h
          have hmem := nearestEntry_mem dist ("query: " ++ text) _ e d hne
          have hfil := List.mem_filter.1 hmem
          exact ⟨svc, e, rfl, by revert hq; cases svc.queryOk <;> simp,
            hfil.1, by simpa using hfil.2, h⟩
        · simp [hd] at h

/-- The one-open-ticket state used as witness input for
`dedup_only_open_entries`. -/
def stOneOpen : EscState :=
  escRun distZero (escInit (some svcEmpty)) [(1, .create argsA)]

/-- The single ticket of `stOneOpen`. -/
def ticketOneOpen : Ticket := freshTicket (escInit (some svcEmpty)) 1 argsA

/-- Witness for `dedup_only_open_entries`: in `stOneOpen` the lookup (with
merge threshold 1) finds the open ticket, and the theorem produces its
"open" index entry. -/
theorem dedup_only_open_entries_witness :
    ∃ svc e, stOneOpen.collection = some svc ∧ svc.queryOk = true
      ∧ e ∈ svc.entries ∧ e.status = "open"
      ∧ getTicketById stOneOpen.db e.id = some ticketOneOpen :=
  dedup_only_open_entries distZero stOneOpen "help" 1 ticketOneOpen rfl

/-- Helper: with an unavailable similarity service (no collection, or a
raising query), the deduplication lookup returns nothing. -/
theorem find_similar_none_of_unavailable (dist : String → String → ℚ)
    (st : EscState) (text : String) (th : ℚ)
    (hfail : st.collection = none
      ∨ ∃ svc, st.collection = some svc ∧ svc.queryOk = false) :
    find_similar_open_ticket dist st text th = none := by
  unfold find_similar_open_ticket
  rcases hfail with hnone | ⟨svc, hsvc, hq⟩
  · rw [hnone]
  · rw [hsvc]; simp [hq]

/-- C7: when the similarity service is unavailable — no collection
configured, or the nearest-neighbour query raising — `create_ticket`
never takes the merge path (no result with `is_new = false`) and the new
case is always committed to the database, even if the subsequent vector
registration also fails (the commit precedes it). -/
theorem similarity_failure_fail_open (dist : String → String → ℚ)
    (st : EscState) (now : Nat) (a : CreateArgs)
    (hfail : st.collection = none
      ∨ ∃ svc, st.collection = some svc ∧ svc.queryOk = false) :
    (create_ticket dist st now a).1.db = st.db ++ [freshTicket st now a]
    ∧ ∀ t : Ticket, (create_ticket dist st now a).2 ≠ .ok (t, false) := by
  have hg : (if a.allow_grouping then
      find_similar_open_ticket dist st a.description else none) = none := by
    by_cases hag : a.allow_grouping <;>
      simp [hag, find_similar_none_of_unavailable dist st a.description _ hfail]
  unfold create_ticket
  rw [hg]
  rcases hfail with hnone | ⟨svc, hsvc, hq⟩
  · simp [hnone]
  · rw [hsvc]
    by_cases hadd : svc.addOk <;> simp [hadd]

/-- The unavailable-service state used as witness input for
`similarity_failure_fail_open`: a configured collection whose query call
raises. -/
def stQueryDown : EscState :=
  { db := [], responses := []
    collection := some { svcEmpty with queryOk := false }, nextId := 1 }

/-- Witness for `similarity_failure_fail_open`: with the raising query
service of `stQueryDown`, creating `argsA` at instant 4 commits exactly
the fresh open ticket and takes no merge path. -/
theorem similarity_failure_fail_open_witness :
    (create_ticket distZero stQueryDown 4 argsA).1.db
        = stQueryDown.db ++ [freshTicket stQueryDown 4 argsA]
    ∧ ∀ t : Ticket,
        (create_ticket distZero stQueryDown 4 argsA).2 ≠ .ok (t, false) :=
  similarity_failure_fail_open distZero stQueryDown 4 argsA
    (Or.inr ⟨{ svcEmpty with queryOk := false }, rfl, rfl⟩)

/-- A `LINE_2` in-domain classification (tier 2). -/
def cls2 : Classification :=
  { category := .TECHNICAL
    criticality := .MEDIUM
    support_line := .LINE_2
    is_bank_related := true
    is_new_topic := true
    needs_offline := false }

/-- A successfully parsed self-assessment with confidence 85 and no
escalation hint. -/
def d85 : AssessData :=
  { confidence := some 85
    is_resolved := some true
    needs_escalation := some false
    escalation_reason := none }

/-- C6 (counterexample): handling an in-domain tier-2 request with a
confident (85) parsed self-assessment does force escalation, but the
case `create_ticket` persists is created with status `OPEN`, not
`Escalated` as the claim states. -/
theorem tier2_case_created_open_not_escalated :
    (process_user_request_core distZero 70 cls2 (.parsed d85) (escInit none)
        metricsInit 7 "alex" "card is blocked" "answer" "[]" 3).2.2
      = Disposition.answered
          { is_resolved := true, confidence := 85, needs_escalation := true,
            escalation_reason := some "Автомаршрутизация на line_2" }
          (some (1, true))
    ∧ ((process_user_request_core distZero 70 cls2 (.parsed d85) (escInit none)
        metricsInit 7 "alex" "card is blocked" "answer" "[]" 3).1.db.map
          (fun t => t.status)) = [.OPEN]
    ∧ TicketStatus.OPEN ≠ TicketStatus.ESCALATED :=
  ⟨rfl, rfl, by decide⟩

/-- C6 (amended): for an in-domain request classified `LINE_2` with a
parsed self-assessment, escalation is forced regardless of confidence,
the handler core takes the case-creation branch, and any case newly
created by `create_ticket` has status `OPEN` (never `Escalated`). -/
theorem tier2_forced_escalation_creates_open_case
    (dist : String → String → ℚ) (thr : Int) (cls : Classification)
    (d : AssessData) (st : EscState) (m : MetricsCollector) (uid : Int)
    (uname text answer hist : String) (now : Nat)
    (hdom : cls.is_bank_related = true) (hline : cls.support_line = .LINE_2) :
    (assess_response thr cls.support_line (.parsed d)).needs_escalation = true
    ∧ (process_user_request_core dist thr cls (.parsed d) st m uid uname
          text answer hist now).1
        = (create_ticket dist st now (coreTicketArgs cls uid uname text answer
            (assess_response thr cls.support_line (.parsed d)).escalation_reason
            hist)).1
    ∧ ∀ (stA : EscState) (nowA : Nat) (aA : CreateArgs) (t : Ticket),
        (create_ticket dist stA nowA aA).2 = .ok (t, true) → t.status = .OPEN := by
  have hforce :
      (assess_response thr cls.support_line (.parsed d)).needs_escalation = true := by
    rw [hline]
    simp [assess_response]
  refine ⟨hforce, ?_, ?_⟩
  · unfold process_user_request_core
    simp only [hdom, Bool.true_eq_false, if_false, hforce, if_true]
    cases hc : create_ticket dist st now (coreTicketArgs cls uid uname text
        answer (assess_response thr cls.support_line (.parsed d)).escalation_reason
        hist) with
    | mk st' r =>
      cases r with
      | ok p => obtain ⟨t, isNew⟩ := p; simp
      | error e => simp
  · intro stA nowA aA t hok
    unfold create_ticket at hok
    cases hg : (if aA.allow_grouping then
        find_similar_open_ticket dist stA aA.description else none) with
    | some tOld =>
      rw [hg] at hok
      simp only [Except.ok.injEq, Prod.mk.injEq] at hok
      exact absurd hok.2 (by decide)
    | none =>
      rw [hg] at hok
      cases hcol : stA.collection with
      | none =>
        simp only [hcol, Except.ok.injEq, Prod.mk.injEq] at hok
        rw [← hok.1]
        rfl
      | some svc =>
        simp only [hcol] at hok
        by_cases hadd : svc.addOk
        · simp only [hadd, if_true, Except.ok.injEq, Prod.mk.injEq] at hok
          rw [← hok.1]
          rfl
        · simp [hadd] at hok

/-- Witness for `tier2_forced_escalation_creates_open_case`, at the
concrete tier-2 request of the counterexample scenario. -/
theorem tier2_forced_escalation_creates_open_case_witness :
    (assess_response 70 cls2.support_line (.parsed d85)).needs_escalation = true
    ∧ (process_user_request_core distZero 70 cls2 (.parsed d85) (escInit none)
          metricsInit 7 "alex" "card is blocked" "answer" "[]" 3).1
        = (create_ticket distZero (escInit none) 3 (coreTicketArgs cls2 7 "alex"
            "card is blocked" "answer"
            (assess_response 70 cls2.support_line (.parsed d85)).escalation_reason
            "[]")).1 :=
  ⟨(tier2_forced_escalation_creates_open_case distZero 70 cls2 d85 (escInit none)
      metricsInit 7 "alex" "card is blocked" "answer" "[]" 3 rfl rfl).1,
   (tier2_forced_escalation_creates_open_case distZero 70 cls2 d85 (escInit none)
      metricsInit 7 "alex" "card is blocked" "answer" "[]" 3 rfl rfl).2.1⟩

end SupportAgent
